import Mathlib

/-
Verification of the optrone command-line argument parser
(`src/source/parser.cpp`, `src/include/optrone/parser.hpp`,
`src/include/optrone/template.hpp`).

C++ strings are modelled as `List Char`; `std::vector` as `List`;
`std::shared_ptr` references as the template values themselves
(matching is purely structural in the source, so identity is not
observable); exceptions as `Except ParseError`.  The out-of-range
`name[1]` read in `find_option` (undefined behaviour in C++) is
modelled as the explicit error `ParseError.outOfBounds`.  The source
positions (`text_range`) and the reconstructed command line only feed
diagnostic previews and are omitted; error values keep the exact
message strings of the source.

The main parse loop is written with an explicit fuel argument so that
it is structurally recursive; `parse_arguments` supplies
`tokens.length` as fuel, which is sufficient because every iteration
consumes at least the matched token (`parse_loop_fuel_irrelevant`
below proves the fuel does not matter once it bounds the token count).
-/

namespace Optrone

/-- Token types, from `optrone::token::token_type` in `parser.hpp`. -/
inductive TokenType where
  | regular
  | short_option
  | long_option
  | switch_option
deriving DecidableEq, Repr

/-- A single command-line token (`optrone::token`), without the
diagnostic `text_range`. -/
structure Token where
  value : List Char
  type : TokenType
deriving DecidableEq, Repr

/-- Model of `optrone::option_template` from `template.hpp`. -/
structure OptionTemplate where
  description : List Char := []
  short_names : List Char := []
  long_names : List (List Char) := []
  params : List (List Char) := []
  defaults : List (List Char) := []
  variadic : Bool := false
deriving DecidableEq, Repr

/-- Model of `optrone::subcommand_template` from `template.hpp` (a tree:
subcommands own nested options and nested subcommands). -/
structure SubcommandTemplate where
  description : List Char := []
  names : List (List Char) := []
  params : List (List Char) := []
  defaults : List (List Char) := []
  variadic : Bool := false
  nested_options : List OptionTemplate := []
  nested_subcommands : List SubcommandTemplate

compile_inductive% SubcommandTemplate

/-- Model of `optrone::parsed_argument` from `parser.hpp`: at most one of the two
template references is set, plus the collected values. -/
structure ParsedArgument where
  ref_option : Option OptionTemplate := none
  ref_subcommand : Option SubcommandTemplate := none
  values : List (List Char) := []

/-- The exceptions of `parse_arguments`: `std::invalid_argument` for
malformed templates, `optrone::argument_error` for malformed input,
and an explicit marker for the out-of-range `name[1]` string access
(undefined behaviour in the C++). -/
inductive ParseError where
  | invalidArgument (msg : String)
  | argumentError (msg : String)
  | outOfBounds
deriving DecidableEq, Repr

/-- Shorthand: the character list of a string literal. -/
def cs (x : String) : List Char := x.data

/-- ASCII uppercase test (models `std::isupper` in the "C" locale). -/
def is_upper_char (c : Char) : Bool := decide ('A' ≤ c) && decide (c ≤ 'Z')

/-- ASCII lowercasing of one character (models `tolower`). -/
def to_lower_char (c : Char) : Char :=
  if is_upper_char c then Char.ofNat (c.toNat + 32) else c

/-- Model of `str_to_lower` from `parser.cpp`. -/
def str_to_lower (s : List Char) : List Char := s.map to_lower_char

/-- Model of `determine_type` from `parser.cpp`: `/...` is a switch, `--...` a
long option, `-...` a short option, anything else regular (checked in
that order). -/
def determine_type (value : List Char) : TokenType :=
  match value with
  | '/' :: _ => .switch_option
  | '-' :: '-' :: _ => .long_option
  | '-' :: _ => .short_option
  | _ => .regular

/-- Step 1 of `optrone::tokenize`: split an option token at the first
`=` (or a switch token at the first `:`); the right part becomes a new
regular token placed immediately after. -/
def split_value (tok : Token) : List Token :=
  let pos : Option Nat :=
    match tok.type with
    | .long_option => tok.value.findIdx? (· == '=')
    | .short_option => tok.value.findIdx? (· == '=')
    | .switch_option => tok.value.findIdx? (· == ':')
    | .regular => none
  match pos with
  | none => [tok]
  | some p => [⟨tok.value.take p, tok.type⟩, ⟨tok.value.drop (p + 1), .regular⟩]

/-- Step 2 of `optrone::tokenize`: a short token longer than two
characters (`-abc`) becomes one short token per character
(`-a`, `-b`, `-c`). -/
def split_short (tok : Token) : List Token :=
  match tok.type, tok.value with
  | .short_option, _ :: c1 :: c2 :: rest =>
    ⟨['-', c1], .short_option⟩ :: (c2 :: rest).map (fun c => ⟨['-', c], .short_option⟩)
  | _, _ => [tok]

/-- Model of `optrone::tokenize` from `parser.cpp` (without the trailing source
range adjustment, which only feeds diagnostics). -/
def tokenize (args : List (List Char)) : List Token :=
  let tokens := args.map (fun a => ⟨a, determine_type a⟩)
  let tokens1 := (tokens.map split_value).flatten
  (tokens1.map split_short).flatten

/-- Run a check over each list element, stopping at the first error
(models the validation `for` loops that throw). -/
def check_each {α : Type} (f : α → Except ParseError Unit) : List α → Except ParseError Unit
  | [] => .ok ()
  | x :: rest =>
    match f x with
    | .error e => .error e
    | .ok _ => check_each f rest

/-- The per-long-name checks of `validate_option`. -/
def validate_long_name (ln : List Char) : Except ParseError Unit :=
  if ln.length < 2 then
    .error (.invalidArgument "Long name cannot be less than 2 characters")
  else if str_to_lower ln ≠ ln then
    .error (.invalidArgument "Long name must be lowercase")
  else if ln.contains ':' ∨ ln.contains '=' then
    .error (.invalidArgument "Long name cannot contain '=' or ':'")
  else if ln.head? = some '-' ∨ ln.head? = some '/' then
    .error (.invalidArgument "Long name cannot start with '-' or '/'")
  else .ok ()

/-- The per-short-name checks of `validate_option`. -/
def validate_short_name (c : Char) : Except ParseError Unit :=
  if is_upper_char c then
    .error (.invalidArgument "Short name must be lowercase")
  else if c = '-' ∨ c = '/' ∨ c = '=' ∨ c = ':' then
    .error (.invalidArgument "Short name cannot be '-', '/', '=' or ':'")
  else .ok ()

/-- Model of `validate_option` from `parser.cpp`. -/
def validate_option (o : OptionTemplate) : Except ParseError Unit :=
  if o.long_names = [] ∧ o.short_names = [] then
    .error (.invalidArgument "No short names or long names specified")
  else match check_each validate_long_name o.long_names with
  | .error e => .error e
  | .ok _ =>
    match check_each validate_short_name o.short_names with
    | .error e => .error e
    | .ok _ =>
      if o.defaults.length > o.params.length then
        .error (.invalidArgument "Option cannot have more number of default values than declared parameters")
      else if o.defaults ≠ [] ∧ o.variadic then
        .error (.invalidArgument "Option cannot have default values and variadic parameters")
      else .ok ()

/-- The per-name checks of `validate_subcommand`. -/
def validate_subcommand_name (n : List Char) : Except ParseError Unit :=
  if str_to_lower n ≠ n then
    .error (.invalidArgument "Subcommand name must be lowercase")
  else if n.contains ':' ∨ n.contains '=' then
    .error (.invalidArgument "Subcommand name cannot contain '=' or ':'")
  else if n.head? = some '-' ∨ n.head? = some '/' then
    .error (.invalidArgument "Subcommand name cannot start with '-' or '/'")
  else .ok ()

/-- The non-recursive checks of `validate_subcommand` (its own fields
and its nested options), in source order. -/
def validate_subcommand_own (s : SubcommandTemplate) : Except ParseError Unit :=
  if s.names = [] then
    .error (.invalidArgument "No short names or long names specified")
  else match check_each validate_subcommand_name s.names with
  | .error e => .error e
  | .ok _ =>
    if s.defaults.length > s.params.length then
      .error (.invalidArgument "Subcommand cannot have more number of default values than declared parameters")
    else if s.defaults ≠ [] ∧ s.variadic then
      .error (.invalidArgument "Subcommand cannot have default values and variadic parameters")
    else if s.nested_subcommands.isEmpty = false ∧ s.variadic then
      .error (.invalidArgument "Subcommand cannot have nested subcommands and variadic parameters")
    else if s.defaults ≠ [] ∧ s.nested_subcommands.isEmpty = false then
      .error (.invalidArgument "Subcommand cannot have default values and nested subcommands")
    else check_each validate_option s.nested_options

/-- The recursion of `validate_subcommand` from `parser.cpp`, applied
to a list (own checks, then nested options, then nested subcommands,
recursively), written with explicit fuel so that it is structurally
recursive; `sizeOf` of the forest strictly bounds the recursion depth,
so the fuel supplied by `validate_subcommands` never runs out
(`validate_subcommands_aux_fuel` below). -/
def validate_subcommands_aux : Nat → List SubcommandTemplate → Except ParseError Unit
  | 0, _ => .ok ()
  | _ + 1, [] => .ok ()
  | fuel + 1, s :: rest =>
    match validate_subcommand_own s with
    | .error e => .error e
    | .ok _ =>
      match validate_subcommands_aux fuel s.nested_subcommands with
      | .error e => .error e
      | .ok _ => validate_subcommands_aux fuel rest

/-- Model of `validate_subcommand` from `parser.cpp`, over a whole forest. -/
def validate_subcommands (subcommands : List SubcommandTemplate) :
    Except ParseError Unit :=
  validate_subcommands_aux (sizeOf subcommands) subcommands

/-- Model of `optrone::validate_templates`: all options, then all subcommands. -/
def validate_templates (options : List OptionTemplate)
    (subcommands : List SubcommandTemplate) : Except ParseError Unit :=
  match check_each validate_option options with
  | .error e => .error e
  | .ok _ => validate_subcommands subcommands

/-- Model of `find_long_name` from `parser.cpp`: lowercase the query, return the
first option owning that long name. -/
def find_long_name (long_name : List Char) (options : List OptionTemplate) :
    Option OptionTemplate :=
  let lower_name := str_to_lower long_name
  options.find? (fun o => o.long_names.contains lower_name)

/-- Model of `find_short_name` from `parser.cpp`: lowercase the query character,
return the first option owning that short name. -/
def find_short_name (short_name : Char) (options : List OptionTemplate) :
    Option OptionTemplate :=
  let lower_name := to_lower_char short_name
  options.find? (fun o => o.short_names.contains lower_name)

/-- Model of `find_option` from `parser.cpp`.  The C++ evaluates `name[1]`
before the short-name lookup; when `name` has fewer than two
characters that read is out of range (undefined behaviour), modelled
here as `ParseError.outOfBounds`. -/
def find_option (name : List Char) (type : TokenType)
    (options : List OptionTemplate) : Except ParseError (Option OptionTemplate) :=
  match type with
  | .long_option => .ok (find_long_name (name.drop 2) options)
  | .short_option =>
    match name.get? 1 with
    | some c => .ok (find_short_name c options)
    | none => .error .outOfBounds
  | .switch_option =>
    if name.length = 2 then
      match name.get? 1 with
      | some c => .ok (find_short_name c options)
      | none => .error .outOfBounds
    else .ok (find_long_name (name.drop 1) options)
  | .regular => .ok none

/-- The recursion of `find_subcommand_name` from `parser.cpp`: for
each subcommand in the list, first compare its own names against the
lowercased query, then search its nested subcommands recursively, then
move on to the next list entry.  Written with explicit fuel (same
device as `validate_subcommands_aux`; see
`find_subcommand_aux_fuel`). -/
def find_subcommand_aux : Nat → List Char → List SubcommandTemplate →
    Option SubcommandTemplate
  | 0, _, _ => none
  | _ + 1, _, [] => none
  | fuel + 1, name, s :: rest =>
    if s.names.contains (str_to_lower name) then some s
    else match find_subcommand_aux fuel name s.nested_subcommands with
      | some r => some r
      | none => find_subcommand_aux fuel name rest

/-- Model of `find_subcommand_name` from `parser.cpp`. -/
def find_subcommand_name (name : List Char)
    (subcommands : List SubcommandTemplate) : Option SubcommandTemplate :=
  find_subcommand_aux (sizeOf subcommands) name subcommands

/-- The first loop of `collect_values`: consume up to `k` leading
regular tokens; returns the consumed values, the remaining tokens and
the count consumed. -/
def consume_bounded (k : Nat) (tokens : List Token) :
    List (List Char) × List Token × Nat :=
  match k, tokens with
  | 0, toks => ([], toks, 0)
  | _ + 1, [] => ([], [], 0)
  | k + 1, tok :: rest =>
    if tok.type = .regular then
      let r := consume_bounded k rest
      (tok.value :: r.1, r.2.1, r.2.2 + 1)
    else ([], tok :: rest, 0)

/-- The variadic loop of `collect_values`: consume every leading
regular token. -/
def consume_all (tokens : List Token) : List (List Char) × List Token :=
  match tokens with
  | [] => ([], [])
  | tok :: rest =>
    if tok.type = .regular then
      let r := consume_all rest
      (tok.value :: r.1, r.2)
    else ([], tok :: rest)

/-- The constant `2^64`, the modulus of the C++ `size_t` arithmetic. -/
def U64 : Nat := 2 ^ 64

/-- Model of `collect_values` from `parser.cpp`.  `first` reproduces the
`size_t` expression `count - params.size() + defaults.size()`, which
wraps around when fewer tokens than `params.size() - defaults.size()`
were consumed, in which case no defaults are appended. -/
def collect_values (tokens : List Token) (params defaults : List (List Char))
    (variadic : Bool) : List (List Char) × List Token :=
  let r := consume_bounded params.length tokens
  let values := r.1
  let rest := r.2.1
  let count := r.2.2
  let first := (count + (U64 - params.length % U64) + defaults.length) % U64
  let last := defaults.length
  let values1 :=
    if first < last then values ++ (defaults.drop first).take (last - first)
    else values
  if variadic then
    let r2 := consume_all rest
    (values1 ++ r2.1, r2.2)
  else (values1, rest)

/-- One iteration of the `parse_arguments` token loop, for the token
`tok` with remaining tokens `rest`: match it (scoped, then global),
collect values, and either produce the record together with the new
scope and remaining tokens, or the thrown error.  (On a failed scoped
subcommand match the C++ nulls the scope before the global search;
that write is unobservable because total failure throws.) -/
def parse_step (options : List OptionTemplate)
    (subcommands : List SubcommandTemplate)
    (nested : Option SubcommandTemplate) (tok : Token) (rest : List Token) :
    Except ParseError (ParsedArgument × Option SubcommandTemplate × List Token) :=
  match tok.type with
  | .regular =>
    let m1 := match nested with
      | some n => find_subcommand_name tok.value [n]
      | none => none
    let matched := match m1 with
      | some m => some m
      | none => find_subcommand_name tok.value subcommands
    match matched with
    | none => .error (.argumentError "Unrecognized subcommand")
    | some m =>
      let c := collect_values rest m.params m.defaults m.variadic
      if c.1.length < m.params.length then
        .error (.argumentError "Too vew values provided for parameters")
      else .ok (⟨none, some m, c.1⟩, some m, c.2)
  | _ =>
    let r1 : Except ParseError (Option OptionTemplate) :=
      match nested with
      | some n => find_option tok.value tok.type n.nested_options
      | none => .ok none
    match r1 with
    | .error e => .error e
    | .ok m1 =>
      let r2 := match m1 with
        | some m => Except.ok (some m)
        | none => find_option tok.value tok.type options
      match r2 with
      | .error e => .error e
      | .ok none => .error (.argumentError "Unrecognized option")
      | .ok (some m) =>
        let c := collect_values rest m.params m.defaults m.variadic
        if c.1.length < m.params.length then
          .error (.argumentError "Too vew values provided for parameters")
        else .ok (⟨some m, none, c.1⟩, nested, c.2)

/-- The token loop of `parse_arguments`, with explicit fuel (each
iteration consumes at least the matched token, so any fuel of at least
the token count gives the loop's exact behaviour). -/
def parse_loop (options : List OptionTemplate)
    (subcommands : List SubcommandTemplate) :
    Nat → Option SubcommandTemplate → List Token →
    Except ParseError (List ParsedArgument)
  | _, _, [] => .ok []
  | 0, _, _ :: _ => .ok []
  | fuel + 1, nested, tok :: rest =>
    match parse_step options subcommands nested tok rest with
    | .error e => .error e
    | .ok (record, nested1, rest1) =>
      match parse_loop options subcommands fuel nested1 rest1 with
      | .error e => .error e
      | .ok out => .ok (record :: out)

/-- Model of `optrone::parse_arguments` from `parser.cpp`: validate the
templates, tokenize, then run the token loop with no active
subcommand scope. -/
def parse_arguments (args : List (List Char))
    (options : List OptionTemplate)
    (subcommands : List SubcommandTemplate) :
    Except ParseError (List ParsedArgument) :=
  match validate_templates options subcommands with
  | .error e => .error e
  | .ok _ =>
    let tokens := tokenize args
    parse_loop options subcommands tokens.length none tokens

/-! Concrete templates used by the individual verification results. -/

/-- An option template with no names at all (rejected by validation). -/
def optNoName : OptionTemplate := {}

/-- An option with three parameters and right-anchored defaults for the
last two. -/
def opt3 : OptionTemplate :=
  { short_names := ['o'],
    params := [cs "p1", cs "p2", cs "p3"],
    defaults := [cs "d2", cs "d3"] }

/-- Leaf subcommand `c` of the nesting scenario. -/
def subC : SubcommandTemplate := { names := [cs "c"], nested_subcommands := [] }

/-- Subcommand `b`, child of `a`, parent of `c`. -/
def subB : SubcommandTemplate := { names := [cs "b"], nested_subcommands := [subC] }

/-- Top-level subcommand `a` of the nesting scenario. -/
def subA : SubcommandTemplate := { names := [cs "a"], nested_subcommands := [subB] }

/-- An option with one long and one short name, for the case-matching
scenarios. -/
def optV : OptionTemplate := { short_names := ['v'], long_names := [cs "verbose"] }

/-- An option with one parameter and one default, for the literal-dash
scenario. -/
def optP : OptionTemplate := { short_names := ['o'], params := [cs "p"], defaults := [cs "d"] }

/-- Flag option `-a` (no parameters). -/
def optA : OptionTemplate := { short_names := ['a'] }

/-- Flag option `-b` (no parameters). -/
def optB : OptionTemplate := { short_names := ['b'] }

/-- Flag option `-c` (no parameters). -/
def optC : OptionTemplate := { short_names := ['c'] }

/-- A parameterless top-level subcommand. -/
def subOnly : SubcommandTemplate := { names := [cs "a"], nested_subcommands := [] }

/-- Modelled from the spec: the claimed resolution rule for positional
tokens — search a list of subcommands by their own names only, with no
recursion into children ("search its direct children by name first
..., otherwise the global/top-level subcommand list"). -/
def claimed_subcommand_match (name : List Char)
    (subs : List SubcommandTemplate) : Option SubcommandTemplate :=
  subs.find? (fun s => s.names.contains name)

/-- Modelled from the spec: the claimed lookup for a two-character
switch token — "first looked up as a single-character short name, and
when no short name matches, the lookup falls back to matching it as a
long name". -/
def claimed_switch_lookup (name : List Char)
    (options : List OptionTemplate) : Except ParseError (Option OptionTemplate) :=
  match name.get? 1 with
  | none => .error .outOfBounds
  | some c =>
    match find_short_name c options with
    | some m => .ok (some m)
    | none => .ok (find_long_name (name.drop 1) options)

end Optrone

namespace Optrone

/-! General lemmas about the embedding: the fuel arguments are
termination devices only, and the token loop only ever consumes
tokens. -/

/-- Any fuel bounding `sizeOf` of the forest gives the same result:
the fuel of `find_subcommand_aux` is a termination device only. -/
theorem find_subcommand_aux_fuel (name : List Char) :
    ∀ f1 f2 : Nat, ∀ subs : List SubcommandTemplate,
    sizeOf subs ≤ f1 → sizeOf subs ≤ f2 →
    find_subcommand_aux f1 name subs = find_subcommand_aux f2 name subs := by
  intro f1
  induction f1 with
  | zero =>
    intro f2 subs h1 h2
    exfalso
    cases subs <;> simp at h1
  | succ f1 ih =>
    intro f2 subs h1 h2
    cases subs with
    | nil =>
      cases f2 with
      | zero => exfalso; simp at h2
      | succ f2 => rfl
    | cons s rest =>
      cases f2 with
      | zero =>
        exfalso
        simp at h2
        try omega
      | succ f2 =>
        have hcons : sizeOf (s :: rest) = 1 + sizeOf s + sizeOf rest := by simp
        have hnested : sizeOf s.nested_subcommands < sizeOf s := by
          cases s
          simp
          try omega
        simp only [find_subcommand_aux]
        rw [ih f2 s.nested_subcommands (by omega) (by omega),
          ih f2 rest (by omega) (by omega)]

/-- Any fuel bounding `sizeOf` of the forest gives the same result:
the fuel of `validate_subcommands_aux` is a termination device only. -/
theorem validate_subcommands_aux_fuel :
    ∀ f1 f2 : Nat, ∀ subs : List SubcommandTemplate,
    sizeOf subs ≤ f1 → sizeOf subs ≤ f2 →
    validate_subcommands_aux f1 subs = validate_subcommands_aux f2 subs := by
  intro f1
  induction f1 with
  | zero =>
    intro f2 subs h1 h2
    exfalso
    cases subs <;> simp at h1
  | succ f1 ih =>
    intro f2 subs h1 h2
    cases subs with
    | nil =>
      cases f2 with
      | zero => exfalso; simp at h2
      | succ f2 => rfl
    | cons s rest =>
      cases f2 with
      | zero =>
        exfalso
        simp at h2
        try omega
      | succ f2 =>
        have hcons : sizeOf (s :: rest) = 1 + sizeOf s + sizeOf rest := by simp
        have hnested : sizeOf s.nested_subcommands < sizeOf s := by
          cases s
          simp
          try omega
        simp only [validate_subcommands_aux]
        rw [ih f2 s.nested_subcommands (by omega) (by omega),
          ih f2 rest (by omega) (by omega)]

/-- The remaining tokens after the bounded consumption loop are a
suffix of the input, so never more numerous. -/
theorem consume_bounded_rest_length (k : Nat) (tokens : List Token) :
    (consume_bounded k tokens).2.1.length ≤ tokens.length := by
  induction k generalizing tokens with
  | zero => simp [consume_bounded]
  | succ k ih =>
    cases tokens with
    | nil => simp [consume_bounded]
    | cons tok rest =>
      by_cases h : tok.type = .regular
      · simp only [consume_bounded, h, if_true]
        exact Nat.le_trans (ih rest) (Nat.le_succ _)
      · simp [consume_bounded, h]

/-- The variadic consumption loop never invents tokens either. -/
theorem consume_all_rest_length (tokens : List Token) :
    (consume_all tokens).2.length ≤ tokens.length := by
  induction tokens with
  | nil => simp [consume_all]
  | cons tok rest ih =>
    by_cases h : tok.type = .regular
    · simp only [consume_all, h, if_true]
      exact Nat.le_trans ih (Nat.le_succ _)
    · simp [consume_all, h]

/-- The function `collect_values` only ever consumes tokens. -/
theorem collect_values_rest_length (tokens : List Token)
    (params defaults : List (List Char)) (variadic : Bool) :
    (collect_values tokens params defaults variadic).2.length ≤ tokens.length := by
  unfold collect_values
  by_cases h : variadic
  · simp only [h, if_true]
    exact Nat.le_trans (consume_all_rest_length _) (consume_bounded_rest_length _ _)
  · simp only [h, if_false]
    exact consume_bounded_rest_length _ _

/-- A successful `parse_step` only ever consumes tokens. -/
theorem parse_step_rest_length (options : List OptionTemplate)
    (subcommands : List SubcommandTemplate) (nested : Option SubcommandTemplate)
    (tok : Token) (rest rest1 : List Token) (record : ParsedArgument)
    (nested1 : Option SubcommandTemplate)
    (h : parse_step options subcommands nested tok rest = .ok (record, nested1, rest1)) :
    rest1.length ≤ rest.length := by
  simp only [parse_step] at h
  repeat' split at h
  all_goals (try cases h)
  all_goals exact collect_values_rest_length _ _ _ _

/-- Any fuel bounding the number of remaining tokens gives the same
result: the fuel in `parse_arguments` is a termination device only
(each iteration consumes at least the matched token). -/
theorem parse_loop_fuel_irrelevant (options : List OptionTemplate)
    (subcommands : List SubcommandTemplate) :
    ∀ f1 f2 : Nat, ∀ nested : Option SubcommandTemplate, ∀ toks : List Token,
    toks.length ≤ f1 → toks.length ≤ f2 →
    parse_loop options subcommands f1 nested toks =
      parse_loop options subcommands f2 nested toks := by
  intro f1
  induction f1 with
  | zero =>
    intro f2 nested toks h1 _
    have : toks = [] := List.length_eq_zero.mp (Nat.le_zero.mp h1)
    subst this
    cases f2 <;> simp [parse_loop]
  | succ f1 ih =>
    intro f2 nested toks h1 h2
    cases toks with
    | nil => cases f2 <;> simp [parse_loop]
    | cons tok rest =>
      cases f2 with
      | zero => exact absurd h2 (by simp)
      | succ f2 =>
        simp only [parse_loop]
        cases hstep : parse_step options subcommands nested tok rest with
        | error e => rfl
        | ok triple =>
          obtain ⟨record, nested1, rest1⟩ := triple
          have hlen : rest1.length ≤ rest.length :=
            parse_step_rest_length _ _ _ _ _ _ _ _ hstep
          have h1' : rest.length + 1 ≤ f1 + 1 := by simpa using h1
          have h2' : rest.length + 1 ≤ f2 + 1 := by simpa using h2
          have e1 : rest1.length ≤ f1 := by omega
          have e2 : rest1.length ≤ f2 := by omega
          simp only
          rw [ih f2 nested1 rest1 e1 e2]

/-- A regular token is untouched by the value-splitting pass. -/
theorem split_value_regular (val : List Char) :
    split_value ⟨val, .regular⟩ = [⟨val, .regular⟩] := rfl

/-- A regular token is untouched by the short-splitting pass. -/
theorem split_short_regular (val : List Char) :
    split_short ⟨val, .regular⟩ = [⟨val, .regular⟩] := rfl

/-- The tokenizer processes arguments independently. -/
theorem tokenize_cons (a : List Char) (args : List (List Char)) :
    tokenize (a :: args) = tokenize [a] ++ tokenize args := by
  simp [tokenize]

/-- An argument classified regular passes through the tokenizer
verbatim. -/
theorem tokenize_regular (a : List Char) (h : determine_type a = .regular) :
    tokenize [a] = [⟨a, .regular⟩] := by
  simp [tokenize, h, split_value_regular, split_short_regular]

/-- Every record a successful `parse_step` emits passed the
too-few-values guard: exactly one template reference is set and the
collected values cover its declared parameters. -/
theorem parse_step_record_covers (options : List OptionTemplate)
    (subcommands : List SubcommandTemplate) (nested : Option SubcommandTemplate)
    (tok : Token) (rest rest1 : List Token) (record : ParsedArgument)
    (nested1 : Option SubcommandTemplate)
    (h : parse_step options subcommands nested tok rest = .ok (record, nested1, rest1)) :
    (∃ o, record.ref_option = some o ∧ record.ref_subcommand = none ∧
      o.params.length ≤ record.values.length) ∨
    (∃ s, record.ref_subcommand = some s ∧ record.ref_option = none ∧
      s.params.length ≤ record.values.length) := by
  simp only [parse_step] at h
  repeat' split at h
  all_goals (try cases h)
  · rename_i m hmatch hlt
    right
    refine ⟨m, rfl, rfl, ?_⟩
    simpa using Nat.le_of_not_lt hlt
  · rename_i m hmatch hlt
    left
    refine ⟨m, rfl, rfl, ?_⟩
    simpa using Nat.le_of_not_lt hlt

/-- The loop invariant: every record in a successful `parse_loop` run
covers its matched template's parameters. -/
theorem parse_loop_records_cover (options : List OptionTemplate)
    (subcommands : List SubcommandTemplate) :
    ∀ fuel : Nat, ∀ nested : Option SubcommandTemplate, ∀ toks : List Token,
    ∀ out : List ParsedArgument,
    parse_loop options subcommands fuel nested toks = .ok out →
    ∀ record ∈ out,
      (∃ o, record.ref_option = some o ∧ record.ref_subcommand = none ∧
        o.params.length ≤ record.values.length) ∨
      (∃ s, record.ref_subcommand = some s ∧ record.ref_option = none ∧
        s.params.length ≤ record.values.length) := by
  intro fuel
  induction fuel with
  | zero =>
    intro nested toks out h record hmem
    cases toks <;> simp only [parse_loop, Except.ok.injEq] at h <;> subst h <;> simp at hmem
  | succ fuel ih =>
    intro nested toks out h record hmem
    cases toks with
    | nil =>
      simp only [parse_loop, Except.ok.injEq] at h
      subst h
      simp at hmem
    | cons tok rest =>
      simp only [parse_loop] at h
      cases hstep : parse_step options subcommands nested tok rest with
      | error e => rw [hstep] at h; cases h
      | ok triple =>
        obtain ⟨rec1, nested1, rest1⟩ := triple
        rw [hstep] at h
        simp only at h
        cases hloop : parse_loop options subcommands fuel nested1 rest1 with
        | error e => rw [hloop] at h; cases h
        | ok out1 =>
          rw [hloop] at h
          simp only [Except.ok.injEq] at h
          subst h
          rcases List.mem_cons.mp hmem with hr | hr
          · subst hr
            exact parse_step_record_covers _ _ _ _ _ _ _ _ hstep
          · exact ih nested1 rest1 out1 hloop record hr

end Optrone

namespace Optrone

/-! Assembly lemmas: they let a concrete parse run be put together from
its individually proven steps without re-evaluating large terms. -/

/-- The token loop returns no records on an empty stream, for any
fuel. -/
theorem parse_loop_nil (options : List OptionTemplate)
    (subcommands : List SubcommandTemplate) (fuel : Nat)
    (nested : Option SubcommandTemplate) :
    parse_loop options subcommands fuel nested [] = .ok [] := by
  cases fuel <;> rfl

/-- One successful iteration of the token loop prepends its record. -/
theorem parse_loop_cons (options : List OptionTemplate)
    (subcommands : List SubcommandTemplate) (fuel : Nat)
    (nested nested1 : Option SubcommandTemplate) (tok : Token)
    (rest rest1 : List Token) (record : ParsedArgument)
    (out : List ParsedArgument)
    (hstep : parse_step options subcommands nested tok rest = .ok (record, nested1, rest1))
    (hrest : parse_loop options subcommands fuel nested1 rest1 = .ok out) :
    parse_loop options subcommands (fuel + 1) nested (tok :: rest) =
      .ok (record :: out) := by
  simp only [parse_loop, hstep, hrest]

/-- With validated templates, `parse_arguments` is the token loop over
the tokenized input. -/
theorem parse_arguments_eq (args : List (List Char))
    (options : List OptionTemplate) (subcommands : List SubcommandTemplate)
    (hval : validate_templates options subcommands = .ok ()) :
    parse_arguments args options subcommands =
      parse_loop options subcommands (tokenize args).length none (tokenize args) := by
  simp only [parse_arguments, hval]

/-- A short-option token with no active scope that matches an option
and collects enough values produces exactly that option's record. -/
theorem parse_step_short_ok (options : List OptionTemplate)
    (subcommands : List SubcommandTemplate) (tok : Token) (rest rest1 : List Token)
    (m : OptionTemplate) (vals : List (List Char))
    (htype : tok.type = .short_option)
    (hfind : find_option tok.value .short_option options = .ok (some m))
    (hcol : collect_values rest m.params m.defaults m.variadic = (vals, rest1))
    (hlen : ¬ vals.length < m.params.length) :
    parse_step options subcommands none tok rest =
      .ok (⟨some m, none, vals⟩, none, rest1) := by
  simp only [parse_step, htype, hfind, hcol]
  rw [if_neg hlen]

end Optrone

namespace Optrone

/-! The ten verification results. -/

/-- C1 (amended): malformed templates are fatal before parsing:
whenever template validation fails, `parse_arguments` throws exactly
that `std::invalid_argument` error without reading any token.
Malformed input, by contrast, also throws (an `argument_error`, see
`C1_counterexample`) instead of producing per-record validity
outcomes; the returned records carry no validity field at all. -/
theorem C1_template_errors_are_fatal (args : List (List Char))
    (options : List OptionTemplate) (subcommands : List SubcommandTemplate)
    (e : ParseError) (h : validate_templates options subcommands = .error e) :
    parse_arguments args options subcommands = .error e := by
  simp [parse_arguments, h]

/-- C1, counterexample: with a well-formed (empty) template forest and
input `["a"]`, `parse_arguments` throws an `argument_error` on the
malformed input instead of returning a record flagged
unrecognized-subcommand. -/
theorem C1_counterexample :
    parse_arguments [cs "a"] [] [] =
      .error (.argumentError "Unrecognized subcommand") := rfl

/-- Witness for `C1_template_errors_are_fatal`: a template with no
names fails validation and `parse_arguments` surfaces exactly that
error. -/
theorem C1_witness :
    parse_arguments [] [optNoName] [] =
      .error (.invalidArgument "No short names or long names specified") :=
  C1_template_errors_are_fatal [] [optNoName] [] _ rfl

/-- C2, counterexample: for input `["a", "--", "-b"]` with no
templates at all, `parse_arguments` throws at the first token; no
record (in particular none for `"-b"`, and none with `is_parsed`
false) is ever returned, so `--` is not an end-of-options marker. -/
theorem C2_counterexample :
    parse_arguments [cs "a", cs "--", cs "-b"] [] [] =
      .error (.argumentError "Unrecognized subcommand") := rfl

/-- C2 (amended): there is no end-of-options handling: a bare `--` is
classified as a long-option token like any other, and when reached it
is matched as an option — its empty long name can never match a
validated template, so it throws unrecognized-option. -/
theorem C2_no_end_of_options_marker :
    determine_type (cs "--") = .long_option ∧
    parse_arguments [cs "--"] [] [] =
      .error (.argumentError "Unrecognized option") :=
  ⟨rfl, rfl⟩

/-- C3, counterexample: supplying zero explicit values to an option
with parameters `[p1,p2,p3]` and defaults `[d2,d3]` does not yield a
returned not-enough-values record with values `[]`; `parse_arguments`
throws and returns nothing. -/
theorem C3_counterexample :
    parse_arguments [cs "-o"] [opt3] [] =
      .error (.argumentError "Too vew values provided for parameters") := rfl

/-- C3 (amended): for the option with parameters `[p1,p2,p3]` and
right-anchored defaults `[d2,d3]`: zero explicit values collect
nothing (and make `parse_arguments` throw the too-few-values
`argument_error`, see `C3_counterexample`); one explicit value `v`
yields a valid record with values `[v, d2, d3]`; two explicit values
`[v1, v2]` yield `[v1, v2, d3]`. -/
theorem C3_right_anchored_defaults (v v1 v2 : List Char)
    (hv : determine_type v = .regular) (hv1 : determine_type v1 = .regular)
    (hv2 : determine_type v2 = .regular) :
    (collect_values [] opt3.params opt3.defaults false).1 = [] ∧
    parse_arguments [cs "-o", v] [opt3] [] =
      .ok [⟨some opt3, none, [v, cs "d2", cs "d3"]⟩] ∧
    parse_arguments [cs "-o", v1, v2] [opt3] [] =
      .ok [⟨some opt3, none, [v1, v2, cs "d3"]⟩] := by
  have hval : validate_templates [opt3] [] = .ok () := rfl
  have htok1 : tokenize [['-', 'o']] = [⟨['-', 'o'], TokenType.short_option⟩] := rfl
  refine ⟨rfl, ?_, ?_⟩
  · have ht : tokenize [['-', 'o'], v] =
        [⟨['-', 'o'], TokenType.short_option⟩, ⟨v, TokenType.regular⟩] := by
      rw [tokenize_cons, htok1, tokenize_regular v hv]
      rfl
    have hcollect : collect_values [⟨v, .regular⟩] opt3.params opt3.defaults opt3.variadic =
        ([v, cs "d2", cs "d3"], []) := by
      simp only [collect_values, opt3]
      norm_num [consume_bounded, U64, cs]
    have hstep : parse_step [opt3] [] none ⟨['-', 'o'], .short_option⟩ [⟨v, .regular⟩] =
        .ok (⟨some opt3, none, [v, cs "d2", cs "d3"]⟩, none, []) :=
      parse_step_short_ok [opt3] [] _ _ _ opt3 _ rfl rfl hcollect (by simp [opt3])
    show parse_arguments [['-', 'o'], v] [opt3] [] =
        .ok [⟨some opt3, none, [v, cs "d2", cs "d3"]⟩]
    rw [parse_arguments_eq _ _ _ hval, ht]
    rw [show ([⟨['-', 'o'], TokenType.short_option⟩, ⟨v, TokenType.regular⟩] : List Token).length
        = 1 + 1 from rfl]
    exact parse_loop_cons _ _ _ _ _ _ _ _ _ _ hstep (parse_loop_nil _ _ _ _)
  · have ht : tokenize [['-', 'o'], v1, v2] =
        [⟨['-', 'o'], TokenType.short_option⟩, ⟨v1, TokenType.regular⟩,
         ⟨v2, TokenType.regular⟩] := by
      rw [tokenize_cons, htok1, tokenize_cons, tokenize_regular v1 hv1,
        tokenize_regular v2 hv2]
      rfl
    have hcollect : collect_values [⟨v1, .regular⟩, ⟨v2, .regular⟩]
        opt3.params opt3.defaults opt3.variadic = ([v1, v2, cs "d3"], []) := by
      simp only [collect_values, opt3]
      norm_num [consume_bounded, U64, cs]
    have hstep : parse_step [opt3] [] none ⟨['-', 'o'], .short_option⟩
        [⟨v1, .regular⟩, ⟨v2, .regular⟩] =
        .ok (⟨some opt3, none, [v1, v2, cs "d3"]⟩, none, []) :=
      parse_step_short_ok [opt3] [] _ _ _ opt3 _ rfl rfl hcollect (by simp [opt3])
    show parse_arguments [['-', 'o'], v1, v2] [opt3] [] =
        .ok [⟨some opt3, none, [v1, v2, cs "d3"]⟩]
    rw [parse_arguments_eq _ _ _ hval, ht]
    rw [show ([⟨['-', 'o'], TokenType.short_option⟩, ⟨v1, TokenType.regular⟩,
        ⟨v2, TokenType.regular⟩] : List Token).length = 1 + 1 + 1 from rfl]
    exact parse_loop_cons _ _ _ _ _ _ _ _ _ _ hstep (parse_loop_nil _ _ _ _)

/-- Witness for `C3_right_anchored_defaults` at concrete values. -/
theorem C3_witness :
    (collect_values [] opt3.params opt3.defaults false).1 = [] ∧
    parse_arguments [cs "-o", cs "x"] [opt3] [] =
      .ok [⟨some opt3, none, [cs "x", cs "d2", cs "d3"]⟩] ∧
    parse_arguments [cs "-o", cs "x", cs "y"] [opt3] [] =
      .ok [⟨some opt3, none, [cs "x", cs "y", cs "d3"]⟩] :=
  C3_right_anchored_defaults (cs "x") (cs "x") (cs "y") rfl rfl rfl

end Optrone

namespace Optrone

/-- C4, counterexample: with scope `a` active, the token `c` matches
neither a direct child of `a` by name nor a top-level name (the
claim's resolution rule, `claimed_subcommand_match`, finds nothing in
either place), yet `parse_arguments` matches it — to the grandchild
`c` — because the real search is recursive. -/
theorem C4_counterexample :
    claimed_subcommand_match (cs "c") subA.nested_subcommands = none ∧
    claimed_subcommand_match (cs "c") [subA] = none ∧
    parse_arguments [cs "a", cs "c"] [] [subA] =
      .ok [⟨none, some subA, []⟩, ⟨none, some subC, []⟩] :=
  ⟨rfl, rfl, rfl⟩

/-- C4 (amended): for a regular token with an active subcommand scope,
the matcher searches the scope subcommand itself and all of its
descendants recursively; if that fails, it searches the entire global
forest recursively (not only the top level); a successful match sets
the scope to the matched subcommand, and a total failure throws, so an
unchanged scope after a failed match is never observable.  Here `c`,
a grandchild of the scope `a`, is matched and becomes the scope; the
next token `b` then falls back to a recursive global search. -/
theorem C4_recursive_scoped_matching :
    find_subcommand_name (cs "c") [subA] = some subC ∧
    parse_arguments [cs "a", cs "c", cs "b"] [] [subA] =
      .ok [⟨none, some subA, []⟩, ⟨none, some subC, []⟩, ⟨none, some subB, []⟩] :=
  ⟨rfl, rfl⟩

/-- C5, counterexample: a long option matches case-insensitively even
in POSIX style with no toggle in sight: `--VERBOSE` matches the
template long name `verbose`. -/
theorem C5_counterexample :
    parse_arguments [cs "--VERBOSE"] [optV] [] = .ok [⟨some optV, none, []⟩] := rfl

/-- C5 (amended): name matching is always case-insensitive, for long
and short names alike and for every token style: the token's name is
lowercased before comparison (validated template names are already
lowercase), and `parse_arguments` has no case-sensitivity toggle
parameter.  Lookup depends only on the lowercased query; `-V` matches
the short name `v`. -/
theorem C5_always_case_insensitive :
    (∀ n1 n2 : List Char, ∀ options : List OptionTemplate,
      str_to_lower n1 = str_to_lower n2 →
      find_long_name n1 options = find_long_name n2 options) ∧
    (∀ c1 c2 : Char, ∀ options : List OptionTemplate,
      to_lower_char c1 = to_lower_char c2 →
      find_short_name c1 options = find_short_name c2 options) ∧
    parse_arguments [cs "-V"] [optV] [] = .ok [⟨some optV, none, []⟩] := by
  refine ⟨?_, ?_, rfl⟩
  · intro n1 n2 options h
    simp only [find_long_name, h]
  · intro c1 c2 options h
    simp only [find_short_name, h]

/-- Witness for `C5_always_case_insensitive`: `VERBOSE` and `verbose`
lowercase identically, so their long-name lookups agree. -/
theorem C5_witness :
    find_long_name (cs "VERBOSE") [optV] = find_long_name (cs "verbose") [optV] :=
  C5_always_case_insensitive.1 (cs "VERBOSE") (cs "verbose") [optV] rfl

end Optrone

namespace Optrone

/-- C6: parsing `-abc`, where `a`, `b`, `c` are the short names of
three independently registered parameterless options, yields exactly
three records in left-to-right order, each referencing its respective
template; the tokenizer splits the token into `-a`, `-b`, `-c`. -/
theorem C6_combined_short_flags (o1 o2 o3 : OptionTemplate)
    (hval : validate_templates [o1, o2, o3] [] = .ok ())
    (hp1 : o1.params = []) (hp2 : o2.params = []) (hp3 : o3.params = [])
    (hd1 : o1.defaults = []) (hd2 : o2.defaults = []) (hd3 : o3.defaults = [])
    (ha : find_short_name 'a' [o1, o2, o3] = some o1)
    (hb : find_short_name 'b' [o1, o2, o3] = some o2)
    (hc : find_short_name 'c' [o1, o2, o3] = some o3) :
    parse_arguments [cs "-abc"] [o1, o2, o3] [] =
      .ok [⟨some o1, none, []⟩, ⟨some o2, none, []⟩, ⟨some o3, none, []⟩] := by
  have ht : tokenize [['-', 'a', 'b', 'c']] =
      [⟨['-', 'a'], TokenType.short_option⟩, ⟨['-', 'b'], TokenType.short_option⟩,
       ⟨['-', 'c'], TokenType.short_option⟩] := rfl
  have hf1 : find_option ['-', 'a'] .short_option [o1, o2, o3] = .ok (some o1) := by
    rw [show find_option ['-', 'a'] .short_option [o1, o2, o3] =
        .ok (find_short_name 'a' [o1, o2, o3]) from rfl, ha]
  have hf2 : find_option ['-', 'b'] .short_option [o1, o2, o3] = .ok (some o2) := by
    rw [show find_option ['-', 'b'] .short_option [o1, o2, o3] =
        .ok (find_short_name 'b' [o1, o2, o3]) from rfl, hb]
  have hf3 : find_option ['-', 'c'] .short_option [o1, o2, o3] = .ok (some o3) := by
    rw [show find_option ['-', 'c'] .short_option [o1, o2, o3] =
        .ok (find_short_name 'c' [o1, o2, o3]) from rfl, hc]
  have hcol : ∀ m : OptionTemplate, m.params = [] → m.defaults = [] →
      ∀ toks : List Token, (∀ t ∈ toks, t.type = .short_option) →
      collect_values toks m.params m.defaults m.variadic = ([], toks) := by
    intro m hp hd toks htoks
    rw [hp, hd]
    have hcons : consume_all toks = ([], toks) := by
      cases toks with
      | nil => rfl
      | cons t rest =>
        have := htoks t (by simp)
        simp [consume_all, this]
    simp [collect_values, consume_bounded, U64, hcons]
  have hstep1 : parse_step [o1, o2, o3] [] none ⟨['-', 'a'], .short_option⟩
      [⟨['-', 'b'], .short_option⟩, ⟨['-', 'c'], .short_option⟩] =
      .ok (⟨some o1, none, []⟩, none,
        [⟨['-', 'b'], .short_option⟩, ⟨['-', 'c'], .short_option⟩]) :=
    parse_step_short_ok _ _ _ _ _ o1 _ rfl hf1
      (hcol o1 hp1 hd1 _ (by intro t ht2; simp at ht2; rcases ht2 with h | h <;> simp [h]))
      (by simp [hp1])
  have hstep2 : parse_step [o1, o2, o3] [] none ⟨['-', 'b'], .short_option⟩
      [⟨['-', 'c'], .short_option⟩] =
      .ok (⟨some o2, none, []⟩, none, [⟨['-', 'c'], .short_option⟩]) :=
    parse_step_short_ok _ _ _ _ _ o2 _ rfl hf2
      (hcol o2 hp2 hd2 _ (by intro t ht2; simp at ht2; simp [ht2]))
      (by simp [hp2])
  have hstep3 : parse_step [o1, o2, o3] [] none ⟨['-', 'c'], .short_option⟩ [] =
      .ok (⟨some o3, none, []⟩, none, []) :=
    parse_step_short_ok _ _ _ _ _ o3 _ rfl hf3
      (hcol o3 hp3 hd3 [] (by simp))
      (by simp [hp3])
  show parse_arguments [['-', 'a', 'b', 'c']] [o1, o2, o3] [] =
      .ok [⟨some o1, none, []⟩, ⟨some o2, none, []⟩, ⟨some o3, none, []⟩]
  rw [parse_arguments_eq _ _ _ hval, ht]
  rw [show ([⟨['-', 'a'], TokenType.short_option⟩, ⟨['-', 'b'], TokenType.short_option⟩,
      ⟨['-', 'c'], TokenType.short_option⟩] : List Token).length = 1 + 1 + 1 from rfl]
  exact parse_loop_cons _ _ _ _ _ _ _ _ _ _ hstep1
    (parse_loop_cons _ _ _ _ _ _ _ _ _ _ hstep2
      (parse_loop_cons _ _ 0 _ _ _ _ _ _ _ hstep3 (parse_loop_nil _ _ _ _)))

/-- Witness for `C6_combined_short_flags`: the three concrete flag
options `-a`, `-b`, `-c`. -/
theorem C6_witness :
    parse_arguments [cs "-abc"] [optA, optB, optC] [] =
      .ok [⟨some optA, none, []⟩, ⟨some optB, none, []⟩, ⟨some optC, none, []⟩] :=
  C6_combined_short_flags optA optB optC rfl rfl rfl rfl rfl rfl rfl rfl rfl rfl

end Optrone

namespace Optrone

/-- C7, counterexample: a bare `-` is not classified as a regular
token — it is a short-option token — and during value collection it
is not consumed as a parameter value: parsing `-o -` against an
option with one parameter and one default backfills the default
instead of consuming `-`, and then crashes with an out-of-range read
when it tries to look `-` up as an option name. -/
theorem C7_counterexample :
    determine_type (cs "-") = .short_option ∧
    parse_arguments [cs "-o", cs "-"] [optP] [] = .error .outOfBounds :=
  ⟨rfl, rfl⟩

/-- C7 (amended): an argument that is exactly `-` is classified as a
short-option token, not a regular one; during value collection it
stops consumption like any other non-regular token (the collector
returns no values for it), and the subsequent option lookup on it
reads index 1 of the one-character string, out of bounds. -/
theorem C7_dash_is_short_option :
    determine_type (cs "-") = .short_option ∧
    collect_values [⟨cs "-", .short_option⟩] [cs "p"] [] false =
      ([], [⟨cs "-", .short_option⟩]) ∧
    find_option (cs "-") .short_option [optP] = .error .outOfBounds :=
  ⟨rfl, rfl, rfl⟩

/-- C8: for a two-character switch token, `find_option` returns
exactly what the spec's short-then-long fallback rule
(`claimed_switch_lookup`) returns, provided every long name in the
templates has at least two characters (which validation guarantees):
the code returns the short-name lookup directly, and the fallback's
long-name lookup of the one-character remainder can never match. -/
theorem C8_switch_short_then_long (name : List Char)
    (options : List OptionTemplate) (hlen : name.length = 2)
    (hlong : ∀ o ∈ options, ∀ ln ∈ o.long_names, 2 ≤ ln.length) :
    find_option name .switch_option options = claimed_switch_lookup name options := by
  obtain ⟨a, b, rfl⟩ := List.length_eq_two.mp hlen
  have hdrop : find_long_name [b] options = none := by
    simp only [find_long_name]
    apply List.find?_eq_none.mpr
    intro o ho hc
    have hmem : str_to_lower [b] ∈ o.long_names := by simpa using hc
    have h2 := hlong o ho _ hmem
    simp [str_to_lower] at h2
  have hget : ([a, b].get? 1) = some b := rfl
  simp only [find_option, claimed_switch_lookup, hget]
  rw [if_pos (by rfl)]
  cases hfs : find_short_name b options with
  | some m => rfl
  | none =>
    simp only
    rw [show List.drop 1 [a, b] = [b] from rfl, hdrop]

/-- Witness for `C8_switch_short_then_long` at the token `/x` against
the `verbose` option. -/
theorem C8_witness :
    find_option (cs "/x") .switch_option [optV] =
      claimed_switch_lookup (cs "/x") [optV] :=
  C8_switch_short_then_long (cs "/x") [optV] rfl (by decide)

/-- C9: the short-option branch of `find_option` reads `name[1]`
unconditionally, and the parser reaches it with the one-character
token `-` (classified short-option by `determine_type`), so the read
is past the end of the string — undefined behaviour in the C++
(`std::string_view::operator[]` out of range).  This evaluates the
code at the failing input `["-"]`. -/
theorem C9_out_of_bounds_read :
    determine_type (cs "-") = .short_option ∧
    (cs "-").length < 2 ∧
    parse_arguments [cs "-"] [] [] = .error .outOfBounds :=
  ⟨rfl, by decide, rfl⟩

/-- C10: every record in a successful `parse_arguments` result
references exactly one template and carries at least as many collected
values as that template declares parameters — records with fewer
values than parameters are never returned (the driver throws
instead). -/
theorem C10_records_cover_params (args : List (List Char))
    (options : List OptionTemplate) (subcommands : List SubcommandTemplate)
    (result : List ParsedArgument)
    (h : parse_arguments args options subcommands = .ok result) :
    ∀ record ∈ result,
      (∃ o, record.ref_option = some o ∧ record.ref_subcommand = none ∧
        o.params.length ≤ record.values.length) ∨
      (∃ s, record.ref_subcommand = some s ∧ record.ref_option = none ∧
        s.params.length ≤ record.values.length) := by
  unfold parse_arguments at h
  split at h
  · cases h
  · exact parse_loop_records_cover options subcommands _ none _ result h

/-- Witness for `C10_records_cover_params` on a one-subcommand
parse. -/
theorem C10_witness :
    (∃ o, (⟨none, some subOnly, []⟩ : ParsedArgument).ref_option = some o ∧
      (⟨none, some subOnly, []⟩ : ParsedArgument).ref_subcommand = none ∧
      o.params.length ≤ (⟨none, some subOnly, []⟩ : ParsedArgument).values.length) ∨
    (∃ s, (⟨none, some subOnly, []⟩ : ParsedArgument).ref_subcommand = some s ∧
      (⟨none, some subOnly, []⟩ : ParsedArgument).ref_option = none ∧
      s.params.length ≤ (⟨none, some subOnly, []⟩ : ParsedArgument).values.length) :=
  C10_records_cover_params [cs "a"] [] [subOnly] [⟨none, some subOnly, []⟩] rfl
    ⟨none, some subOnly, []⟩ (by simp)

end Optrone
